import Mathlib

/-!
# DefaultSceneLayer::_CreateScene

A verification development for `src/Application/Layers/DefaultSceneLayer.cpp`.

The routine is a straight-line sequence of calls into the engine (resource
manager, scene graph, physics wrapper, application) with one counted loop.
It is embedded as a program over three kinds of interaction with the outside:

* an engine call, which may throw and which returns a handle,
* a draw from the GLM random source, which cannot throw,
* a filesystem query (`std::filesystem::exists`).

Floating point literals are read as the exact decimals written in the source
(type `Rat`). What the routine only passes on is kept symbolic: the results of
the GLM matrix functions, the named vector constants, and the answers of the
random source (`Scalar.rand n i` is coordinate `i` of the answer to draw `n`).
-/

set_option maxRecDepth 100000

namespace DefaultSceneLayer

/-! ## Values passed to the engine -/

/-- Engine objects are referred to by handles (the `Sptr`s and references of the source). -/
abbrev Handle := Nat

/-- A number handed to the engine: a literal of the source, or coordinate `coord`
of the answer of the random source to draw number `draw`. -/
inductive Scalar where
  | lit (q : Rat)
  | rand (draw : Nat) (coord : Nat)
deriving DecidableEq, Repr

instance : OfScientific Scalar := ⟨fun m s e => .lit (OfScientific.ofScientific m s e)⟩

instance (n : Nat) : OfNat Scalar n := ⟨.lit n⟩

/-- The value of a scalar once the random source has answered: `ρ n i` is
coordinate `i` of its answer to draw `n`. -/
def Scalar.value (ρ : Nat → Nat → Rat) : Scalar → Rat
  | .lit q => q
  | .rand n i => ρ n i

/-- A `glm::vec2`. -/
structure Vec2 where
  x : Scalar
  y : Scalar
deriving DecidableEq, Repr

/-- A `glm::vec3`. -/
structure Vec3 where
  x : Scalar
  y : Scalar
  z : Scalar
deriving DecidableEq, Repr

/-- The constructor `glm::vec3(glm::vec2, float)`. -/
def Vec3.ofVec2 (v : Vec2) (z : Scalar) : Vec3 := ⟨v.x, v.y, z⟩

/-- The constructor `glm::vec3(float)`: all three coordinates equal. -/
def Vec3.splat (a : Scalar) : Vec3 := ⟨a, a, a⟩

/-- The constructor `glm::vec2(float)`: both coordinates equal. -/
def Vec2.splat (a : Scalar) : Vec2 := ⟨a, a⟩

/-- Named vector constants of `Utils/GlmDefines.h`, kept symbolic (the header is not in the source). -/
inductive VecConst where
  | ZERO
  | UNIT_X
  | UNIT_Z
deriving DecidableEq, Repr

/-- Angles as the source writes them. -/
inductive Angle where
  | half_pi
  | radians (degrees : Rat)
deriving DecidableEq, Repr

/-- Matrices as the source builds them; the GLM functions are not evaluated. -/
inductive Mat4 where
  | MAT4_IDENTITY
  | rotate (m : Mat4) (angle : Angle) (axis : Vec3)
  | perspective (fovy : Angle) (aspect : Rat) (zNear : Rat) (zFar : Rat)
deriving DecidableEq, Repr

inductive ShaderPartType where
  | Vertex
  | Fragment
deriving DecidableEq, Repr

inductive InternalFormat where
  | Unknown
  | RGB8
deriving DecidableEq, Repr

inductive PixelFormat where
  | RGB
deriving DecidableEq, Repr

inductive PixelType where
  | Float
deriving DecidableEq, Repr

inductive WrapMode where
  | ClampToEdge
deriving DecidableEq, Repr

inductive RigidBodyType where
  | Dynamic
deriving DecidableEq, Repr

/-- The fields of `Texture2DDescription` the routine assigns. -/
structure Texture2DDescription where
  Width : Nat
  Height : Nat
  Format : InternalFormat
deriving DecidableEq, Repr

/-- The template argument of `ResourceManager::CreateAsset<T>`. -/
inductive AssetKind where
  | ShaderProgram
  | MeshResource
  | Texture2D
  | Texture2DArray
  | Texture1D
  | TextureCube
  | Texture3D
  | Material
deriving DecidableEq, Repr

/-- The arguments of `ResourceManager::CreateAsset<T>(...)`, one form per overload used. -/
inductive AssetArgs where
  | parts (sources : List (ShaderPartType × String))
  | path (file : String)
  | pathGrid (file : String) (cols : Nat) (rows : Nat)
  | descriptor (d : Texture2DDescription)
  | shader (program : Handle)
  | none
deriving DecidableEq, Repr

/-- The template argument of `GameObject::Add<T>`. -/
inductive ComponentKind where
  | Camera
  | Light
  | RenderComponent
  | JumpBehaviour
  | CharacterMovement
  | TriggerVolume
  | RigidBody (type : RigidBodyType)
  | EnemyComponent
  | ShadowCamera
deriving DecidableEq, Repr

/-- Arguments of the setter methods. -/
inductive Value where
  | handle (h : Handle)
  | scalar (q : Scalar)
  | vec3 (v : Vec3)
  | mat4 (m : Mat4)
  | text (s : String)
  | wrap (m : WrapMode)
  | pixels (w : Nat) (h : Nat) (f : PixelFormat) (t : PixelType) (data : List Rat)
  | unit
deriving DecidableEq, Repr

/-- The setter methods the routine calls on assets, the scene and components.
`Set` is `Material::Set(name, value)`; `Name` is the assignment to the public
field `Material::Name`. -/
inductive Method where
  | SetDebugName
  | LoadData
  | SetWrap
  | SetSkyboxTexture
  | SetSkyboxShader
  | SetSkyboxRotation
  | SetColorLUT
  | Name
  | Set (uniform : String)
  | SetColor
  | SetRadius
  | SetIntensity
  | AddParam
  | GenerateMesh
  | SetMesh
  | SetMaterial
  | AddCollider
  | SetMass
  | SetProjection
deriving DecidableEq, Repr

/-- One call into the engine, with its arguments. -/
inductive Call where
  | Application_Get
  | LoadSceneFile (app : Handle) (path : String)
  | LoadScene (app : Handle) (scene : Handle)
  | CreateAsset (kind : AssetKind) (args : AssetArgs)
  | SaveManifest (path : String)
  | Scene_new
  | Save (scene : Handle) (path : String)
  | MainCamera (scene : Handle)
  | GetGameObject (component : Handle)
  | SelfRef (object : Handle)
  | CreateGameObject (scene : Handle) (name : String)
  | SetPostion (object : Handle) (v : Vec3)
  | SetRotation (object : Handle) (v : Vec3)
  | SetScale (object : Handle) (v : Vec3)
  | AddChild (parent : Handle) (child : Handle)
  | Add (object : Handle) (kind : ComponentKind)
  | CreatePlane (pos : VecConst) (normal : VecConst) (tangent : VecConst) (size : Vec2) (uvScale : Option Vec2)
  | SphereCollider_Create (radius : Rat)
  | method (target : Handle) (m : Method) (arg : Value)
deriving DecidableEq, Repr

/-- Field accesses (`scene->MainCamera`, `material->Name = ...`) go through the
engine object but are not function calls and cannot throw. -/
def Call.canThrow : Call → Bool
  | .MainCamera _ => false
  | .method _ .Name _ => false
  | _ => true

/-- A request to the GLM random source. -/
inductive Draw where
  | diskRand (radius : Rat)
  | linearRand (lo : Rat) (hi : Rat)
  | linearRand3 (lo : Vec3) (hi : Vec3)
deriving DecidableEq, Repr

/-- What the random source hands back, kept symbolic: the answer to draw number `draw`. -/
structure Sample where
  draw : Nat
deriving DecidableEq, Repr

/-- First coordinate of the answer. -/
def Sample.a (s : Sample) : Scalar := .rand s.draw 0

/-- Second coordinate of the answer. -/
def Sample.b (s : Sample) : Scalar := .rand s.draw 1

/-- Third coordinate of the answer. -/
def Sample.c (s : Sample) : Scalar := .rand s.draw 2

/-! ## Programs -/

/-- A program: a tree of interactions, each continued with the value it returned. -/
inductive Prog (α : Type) where
  | ret (a : α)
  | call (c : Call) (k : Handle → Prog α)
  | rand (d : Draw) (k : Sample → Prog α)
  | fsExists (path : String) (k : Bool → Prog α)

/-- Sequencing of programs. -/
def Prog.bind {α β : Type} : Prog α → (α → Prog β) → Prog β
  | .ret a, f => f a
  | .call c k, f => .call c (fun h => (k h).bind f)
  | .rand d k, f => .rand d (fun s => (k s).bind f)
  | .fsExists p k, f => .fsExists p (fun b => (k b).bind f)

instance : Monad Prog where
  pure := Prog.ret
  bind := Prog.bind

/-- An engine call whose result is used. -/
def invoke (c : Call) : Prog Handle := Prog.call c Prog.ret

/-- An engine call whose result is discarded (or that returns `void`). -/
def invoke_ (c : Call) : Prog Unit := Prog.call c (fun _ => Prog.ret ())

/-- The loop `for (int ix = lo; ix < hi; ix++) body`. -/
def forLoop (ix : Nat) (hi : Nat) (body : Nat → Prog Unit) : Prog Unit :=
  if ix < hi then
    (body ix).bind (fun _ => forLoop (ix + 1) hi body)
  else
    Prog.ret ()
termination_by hi - ix

/-! ## The engine interface, under the names the source uses -/

/-- The call `Application::Get()`. -/
def Application.Get : Prog Handle := invoke .Application_Get

/-- The call `app.LoadScene(path)`: load a scene from a file. -/
def Application.LoadSceneFile (app : Handle) (path : String) : Prog Unit :=
  invoke_ (.LoadSceneFile app path)

/-- The call `app.LoadScene(scene)`: hand a scene object to the application. -/
def Application.LoadScene (app : Handle) (scene : Handle) : Prog Unit :=
  invoke_ (.LoadScene app scene)

/-- The call `ResourceManager::CreateAsset<kind>(args)`. -/
def ResourceManager.CreateAsset (kind : AssetKind) (args : AssetArgs) : Prog Handle :=
  invoke (.CreateAsset kind args)

/-- The call `ResourceManager::SaveManifest(path)`. -/
def ResourceManager.SaveManifest (path : String) : Prog Unit := invoke_ (.SaveManifest path)

/-- The expression `std::make_shared<Scene>()`. -/
def Scene.make_shared : Prog Handle := invoke .Scene_new

/-- The call `scene->Save(path)`. -/
def Scene.Save (scene : Handle) (path : String) : Prog Unit := invoke_ (.Save scene path)

/-- The call `scene->CreateGameObject(name)`. -/
def Scene.CreateGameObject (scene : Handle) (name : String) : Prog Handle :=
  invoke (.CreateGameObject scene name)

/-- The chain `scene->MainCamera->GetGameObject()->SelfRef()`. -/
def Scene.MainCameraObject (scene : Handle) : Prog Handle :=
  (invoke (.MainCamera scene)).bind fun cam =>
  (invoke (.GetGameObject cam)).bind fun obj =>
  invoke (.SelfRef obj)

/-- The call `object->SetPostion(v)` (spelled as in the engine). -/
def GameObject.SetPostion (object : Handle) (v : Vec3) : Prog Unit := invoke_ (.SetPostion object v)

/-- The call `object->SetRotation(v)`. -/
def GameObject.SetRotation (object : Handle) (v : Vec3) : Prog Unit := invoke_ (.SetRotation object v)

/-- The call `object->SetScale(v)`. -/
def GameObject.SetScale (object : Handle) (v : Vec3) : Prog Unit := invoke_ (.SetScale object v)

/-- The call `parent->AddChild(child)`. -/
def GameObject.AddChild (parent : Handle) (child : Handle) : Prog Unit := invoke_ (.AddChild parent child)

/-- The call `object->Add<kind>(...)`. -/
def GameObject.Add (object : Handle) (kind : ComponentKind) : Prog Handle := invoke (.Add object kind)

/-- The call `MeshBuilderParam::CreatePlane(pos, normal, tangent, size[, uvScale])`. -/
def MeshBuilderParam.CreatePlane (pos normal tangent : VecConst) (size : Vec2)
    (uvScale : Option Vec2) : Prog Handle :=
  invoke (.CreatePlane pos normal tangent size uvScale)

/-- The call `SphereCollider::Create(radius)`. -/
def SphereCollider.Create (radius : Rat) : Prog Handle := invoke (.SphereCollider_Create radius)

/-- A setter call `target->m(arg)`. -/
def set (target : Handle) (m : Method) (arg : Value) : Prog Unit := invoke_ (.method target m arg)

/-- The call `glm::diskRand(radius)`. -/
def diskRand (radius : Rat) : Prog Vec2 := Prog.rand (.diskRand radius) fun s => Prog.ret ⟨s.a, s.b⟩

/-- The call `glm::linearRand(lo, hi)` on floats. -/
def linearRand (lo hi : Rat) : Prog Scalar := Prog.rand (.linearRand lo hi) fun s => Prog.ret s.a

/-- The call `glm::linearRand(lo, hi)` on `glm::vec3`. -/
def linearRand3 (lo hi : Vec3) : Prog Vec3 :=
  Prog.rand (.linearRand3 lo hi) fun s => Prog.ret ⟨s.a, s.b, s.c⟩

/-- The call `std::filesystem::exists(path)`. -/
def filesystem_exists (path : String) : Prog Bool := Prog.fsExists path Prog.ret

/-! ## The routine -/

/-- The body of the light loop (source lines 264 to 271). -/
def lightBody (scene lightParent : Handle) (_ix : Nat) : Prog Unit := do
  let light ← Scene.CreateGameObject scene "Light"
  let d ← diskRand 25.0
  GameObject.SetPostion light (Vec3.ofVec2 d 1.0)
  GameObject.AddChild lightParent light
  let lightComponent ← GameObject.Add light .Light
  let c ← linearRand3 (Vec3.splat 0.0) (Vec3.splat 1.0)
  set lightComponent .SetColor (.vec3 c)
  let r ← linearRand 0.1 10.0
  set lightComponent .SetRadius (.scalar r)
  let i ← linearRand 1.0 2.0
  set lightComponent .SetIntensity (.scalar i)

/-- The routine `DefaultSceneLayer::_CreateScene` (source lines 93 to 398). -/
def _CreateScene : Prog Unit := do
  let app ← Application.Get
  let loadScene : Bool := false
  -- `loadScene && std::filesystem::exists("scene.json")`: the right operand is
  -- evaluated only when the left one is true
  let fromFile ← (if loadScene then filesystem_exists "scene.json" else pure false)
  if fromFile then
    Application.LoadSceneFile app "scene.json"
  else
    let deferredForward ← ResourceManager.CreateAsset .ShaderProgram (.parts [
      (.Vertex, "shaders/vertex_shaders/basic.glsl"),
      (.Fragment, "shaders/fragment_shaders/deferred_forward.glsl")])
    set deferredForward .SetDebugName (.text "Deferred - GBuffer Generation")
    let foliageShader ← ResourceManager.CreateAsset .ShaderProgram (.parts [
      (.Vertex, "shaders/vertex_shaders/foliage.glsl"),
      (.Fragment, "shaders/fragment_shaders/deferred_forward.glsl")])
    set foliageShader .SetDebugName (.text "Foliage")
    let multiTextureShader ← ResourceManager.CreateAsset .ShaderProgram (.parts [
      (.Vertex, "shaders/vertex_shaders/vert_multitextured.glsl"),
      (.Fragment, "shaders/fragment_shaders/frag_multitextured.glsl")])
    set multiTextureShader .SetDebugName (.text "Multitexturing")
    let displacementShader ← ResourceManager.CreateAsset .ShaderProgram (.parts [
      (.Vertex, "shaders/vertex_shaders/displacement_mapping.glsl"),
      (.Fragment, "shaders/fragment_shaders/deferred_forward.glsl")])
    set displacementShader .SetDebugName (.text "Displacement Mapping")
    let celShader ← ResourceManager.CreateAsset .ShaderProgram (.parts [
      (.Vertex, "shaders/vertex_shaders/displacement_mapping.glsl"),
      (.Fragment, "shaders/fragment_shaders/cel_shader.glsl")])
    set celShader .SetDebugName (.text "Cel Shader")
    -- Load in the meshes
    let _monkeyMesh ← ResourceManager.CreateAsset .MeshResource (.path "Monkey.obj")
    let _shipMesh ← ResourceManager.CreateAsset .MeshResource (.path "fenrir.obj")
    let _groundMesh ← ResourceManager.CreateAsset .MeshResource (.path "ground.obj")
    let knightMesh ← ResourceManager.CreateAsset .MeshResource (.path "Knight.obj")
    let linkMesh ← ResourceManager.CreateAsset .MeshResource (.path "link.obj")
    let flagMesh ← ResourceManager.CreateAsset .MeshResource (.path "FLag.obj")
    let backgroundTex ← ResourceManager.CreateAsset .Texture2D (.path "textures/background.png")
    let knightTex ← ResourceManager.CreateAsset .Texture2D (.path "textures/knight.png")
    let linkTex ← ResourceManager.CreateAsset .Texture2D (.path "textures/link.png")
    let groundTex ← ResourceManager.CreateAsset .Texture2D (.path "textures/ground.png")
    let flagTex ← ResourceManager.CreateAsset .Texture2D (.path "textures/flag.png")
    -- Load some images for drag n drop
    let _ ← ResourceManager.CreateAsset .Texture2D (.path "textures/flashlight.png")
    let _ ← ResourceManager.CreateAsset .Texture2D (.path "textures/flashlight-2.png")
    let _ ← ResourceManager.CreateAsset .Texture2D (.path "textures/light_projection.png")
    let _particleTex ← ResourceManager.CreateAsset .Texture2DArray
      (.pathGrid "textures/particles.png" 2 2)
    -- Basic Texture Creation
    let singlePixelDescriptor : Texture2DDescription := ⟨1, 1, .RGB8⟩
    let normalMapDefaultData : List Rat := [0.5, 0.5, 1.0]
    let normalMapDefault ← ResourceManager.CreateAsset .Texture2D (.descriptor singlePixelDescriptor)
    set normalMapDefault .LoadData (.pixels 1 1 .RGB .Float normalMapDefaultData)
    let solidGrey : List Rat := [0.5, 0.5, 0.5]
    let solidBlack : List Rat := [0.0, 0.0, 0.0]
    let solidWhite : List Rat := [1.0, 1.0, 1.0]
    let solidBlackTex ← ResourceManager.CreateAsset .Texture2D (.descriptor singlePixelDescriptor)
    set solidBlackTex .LoadData (.pixels 1 1 .RGB .Float solidBlack)
    let solidGreyTex ← ResourceManager.CreateAsset .Texture2D (.descriptor singlePixelDescriptor)
    set solidGreyTex .LoadData (.pixels 1 1 .RGB .Float solidGrey)
    let solidWhiteTex ← ResourceManager.CreateAsset .Texture2D (.descriptor singlePixelDescriptor)
    set solidWhiteTex .LoadData (.pixels 1 1 .RGB .Float solidWhite)
    -- Loading in a 1D LUT
    let toonLut ← ResourceManager.CreateAsset .Texture1D (.path "luts/toon-1D.png")
    set toonLut .SetWrap (.wrap .ClampToEdge)
    -- the cubemap and the skybox shader
    let testCubemap ← ResourceManager.CreateAsset .TextureCube (.path "cubemaps/ocean/ocean.jpg")
    let skyboxShader ← ResourceManager.CreateAsset .ShaderProgram (.parts [
      (.Vertex, "shaders/vertex_shaders/skybox_vert.glsl"),
      (.Fragment, "shaders/fragment_shaders/skybox_frag.glsl")])
    -- Create an empty scene
    let scene ← Scene.make_shared
    set scene .SetSkyboxTexture (.handle testCubemap)
    set scene .SetSkyboxShader (.handle skyboxShader)
    set scene .SetSkyboxRotation (.mat4 (.rotate .MAT4_IDENTITY .half_pi ⟨1.0, 0.0, 0.0⟩))
    -- Loading in a color lookup table
    let lut ← ResourceManager.CreateAsset .Texture3D (.path "luts/cool.CUBE")
    set scene .SetColorLUT (.handle lut)
    -- This is our background texture and it is moderatly shiny
    let backgroundMaterial ← ResourceManager.CreateAsset .Material (.shader deferredForward)
    set backgroundMaterial .Name (.text "Box")
    set backgroundMaterial (.Set "u_Material.AlbedoMap") (.handle backgroundTex)
    set backgroundMaterial (.Set "u_Material.Shininess") (.scalar 0.5)
    set backgroundMaterial (.Set "u_Material.NormalMap") (.handle normalMapDefault)
    -- texture for link ... it is very dull as it is supposed to be cloth
    let linkMaterial ← ResourceManager.CreateAsset .Material (.shader deferredForward)
    set linkMaterial .Name (.text "Box")
    set linkMaterial (.Set "u_Material.AlbedoMap") (.handle linkTex)
    set linkMaterial (.Set "u_Material.Shininess") (.scalar 0.1)
    set linkMaterial (.Set "u_Material.NormalMap") (.handle normalMapDefault)
    -- material for the knight which is very shiny because it is supposed to be metal
    let knightMaterial ← ResourceManager.CreateAsset .Material (.shader deferredForward)
    set knightMaterial .Name (.text "Box")
    set knightMaterial (.Set "u_Material.AlbedoMap") (.handle knightTex)
    set knightMaterial (.Set "u_Material.Shininess") (.scalar 0.9)
    set knightMaterial (.Set "u_Material.NormalMap") (.handle normalMapDefault)
    let groundMaterial ← ResourceManager.CreateAsset .Material (.shader deferredForward)
    set groundMaterial .Name (.text "Box")
    set groundMaterial (.Set "u_Material.AlbedoMap") (.handle groundTex)
    set groundMaterial (.Set "u_Material.Shininess") (.scalar 0.5)
    set groundMaterial (.Set "u_Material.NormalMap") (.handle normalMapDefault)
    let flagMaterial ← ResourceManager.CreateAsset .Material (.shader deferredForward)
    set flagMaterial .Name (.text "Box")
    set flagMaterial (.Set "u_Material.AlbedoMap") (.handle flagTex)
    set flagMaterial (.Set "u_Material.Shininess") (.scalar 0.1)
    set flagMaterial (.Set "u_Material.NormalMap") (.handle normalMapDefault)
    -- Create some lights for our scene
    let lightParent ← Scene.CreateGameObject scene "Lights"
    forLoop 0 50 (lightBody scene lightParent)
    -- a simple plane mesh
    let planeMesh ← ResourceManager.CreateAsset .MeshResource .none
    let planeParam ← MeshBuilderParam.CreatePlane .ZERO .UNIT_Z .UNIT_X (Vec2.splat 1.0) none
    set planeMesh .AddParam (.handle planeParam)
    set planeMesh .GenerateMesh .unit
    -- Set up the scene camera
    let camera ← Scene.MainCameraObject scene
    GameObject.SetPostion camera ⟨9, .lit (-9), 9⟩
    GameObject.SetRotation camera ⟨70, 0, 0⟩
    -- Set up all our sample objects
    let background ← Scene.CreateGameObject scene "Background"
    let tiledMesh ← ResourceManager.CreateAsset .MeshResource .none
    let tiledParam ← MeshBuilderParam.CreatePlane .ZERO .UNIT_Z .UNIT_X (Vec2.splat 100.0)
      (some (Vec2.splat 1.0))
    set tiledMesh .AddParam (.handle tiledParam)
    set tiledMesh .GenerateMesh .unit
    GameObject.SetPostion background ⟨11.17, 12.0, 7.13⟩
    GameObject.SetRotation background ⟨78, 0, 0⟩
    GameObject.SetScale background ⟨0.9, 0.8, 1.0⟩
    let renderer ← GameObject.Add background .RenderComponent
    set renderer .SetMesh (.handle tiledMesh)
    set renderer .SetMaterial (.handle backgroundMaterial)
    let link ← Scene.CreateGameObject scene "Link"
    GameObject.SetPostion link ⟨.lit (-4.0), 0.0, 1.0⟩
    -- Add some behaviour that relies on the physics body
    let _ ← GameObject.Add link .JumpBehaviour
    let _ ← GameObject.Add link .CharacterMovement
    let renderer ← GameObject.Add link .RenderComponent
    set renderer .SetMesh (.handle linkMesh)
    set renderer .SetMaterial (.handle linkMaterial)
    let trigger ← GameObject.Add link .TriggerVolume
    let collider ← SphereCollider.Create 1.8
    set trigger .AddCollider (.handle collider)
    let knight ← Scene.CreateGameObject scene "Knight"
    let physics ← GameObject.Add knight (.RigidBody .Dynamic)
    let sphere ← SphereCollider.Create 1.2
    set physics .AddCollider (.handle sphere)
    set physics .SetMass (.scalar 0.0)
    GameObject.SetPostion knight ⟨20.0, 0.0, 3.2⟩
    GameObject.SetRotation knight ⟨0.0, 0, .lit (-113.0)⟩
    -- Add some behaviour that relies on the physics body
    let _ ← GameObject.Add knight .EnemyComponent
    let renderer ← GameObject.Add knight .RenderComponent
    set renderer .SetMesh (.handle knightMesh)
    set renderer .SetMaterial (.handle knightMaterial)
    let ground ← Scene.CreateGameObject scene "Ground"
    let tiledMesh ← ResourceManager.CreateAsset .MeshResource .none
    let tiledParam ← MeshBuilderParam.CreatePlane .ZERO .UNIT_Z .UNIT_X (Vec2.splat 100.0)
      (some (Vec2.splat 1.0))
    set tiledMesh .AddParam (.handle tiledParam)
    set tiledMesh .GenerateMesh .unit
    GameObject.SetPostion ground ⟨9.47, 1.57, .lit (-0.51)⟩
    GameObject.SetScale ground ⟨5.86, 2.23, 1.6⟩
    let renderer ← GameObject.Add ground .RenderComponent
    set renderer .SetMesh (.handle tiledMesh)
    set renderer .SetMaterial (.handle groundMaterial)
    let flag ← Scene.CreateGameObject scene "Flag"
    GameObject.SetPostion flag ⟨28.2, 0.0, 1.0⟩
    GameObject.SetRotation flag ⟨81.0, 1.0, 47.0⟩
    let renderer ← GameObject.Add flag .RenderComponent
    set renderer .SetMesh (.handle flagMesh)
    set renderer .SetMaterial (.handle flagMaterial)
    let shadowCaster ← Scene.CreateGameObject scene "Shadow Light"
    GameObject.SetPostion shadowCaster ⟨9, .lit (-15.5), 9⟩
    GameObject.SetRotation shadowCaster ⟨65.05, 0.0, .lit (-2.546)⟩
    let shadowCam ← GameObject.Add shadowCaster .ShadowCamera
    set shadowCam .SetProjection (.mat4 (.perspective (.radians 120.0) 1.0 0.01 100.0))
    -- Save the asset manifest for all the resources we just loaded
    ResourceManager.SaveManifest "scene-manifest.json"
    -- Save the scene to a JSON file
    Scene.Save scene "scene.json"
    -- Send the scene to the application
    Application.LoadScene app scene

/-! ## The engine

The engine classes (`ResourceManager`, `Scene`, `GameObject`, `Application`, ...)
are not part of the source. The state below records what the calls of the
routine ask the engine to do, and nothing more.
-/

/-- One entry of the interaction log: what was asked and what came back. -/
inductive Event where
  | call (c : Call) (result : Handle)
  | draw (d : Draw) (s : Sample)
  | exist (path : String) (result : Bool)
deriving DecidableEq, Repr

/-- Modelled from the spec: a game object, "a node in the scene graph", carrying
"attachable" components; the class `GameObject` is not in the source. -/
structure GameObject where
  id : Handle
  scene : Handle
  name : String
  position : Vec3
  rotation : Vec3
  scale : Vec3
  parent : Option Handle
  children : List Handle
  components : List (ComponentKind × Handle)
deriving DecidableEq, Repr

/-- Modelled from the spec: an entry of the resource manager, the "external asset
loader/cache"; the class `ResourceManager` is not in the source. -/
structure Asset where
  id : Handle
  kind : AssetKind
  args : AssetArgs
deriving DecidableEq, Repr

/-- Modelled from the spec: what a setter leaves in the engine, as the recorded call (target,
method, argument); the classes with the setters are not in the source. -/
structure Attribute where
  target : Handle
  m : Method
  arg : Value
deriving DecidableEq, Repr

/-- Modelled from the spec: the two output artifacts, "an asset manifest JSON and a
scene JSON", as the data they are written from; any other file is opaque text. -/
inductive FileContent where
  | manifest (assets : List Asset)
  | scene (scene : Handle) (objects : List GameObject) (attributes : List Attribute)
  | other (text : String)
deriving DecidableEq, Repr

/-- Modelled from the spec: what the application currently shows; the class `Application` is
not in the source. -/
inductive Loaded where
  | nothing
  | fromFile (path : String)
  | object (scene : Handle)
deriving DecidableEq, Repr

/-- Modelled from the spec: the state of the engine, with the files it wrote so
far. All lists are newest first. -/
structure World where
  trace : List Event
  next : Handle
  draws : Nat
  assets : List Asset
  objects : List GameObject
  attributes : List Attribute
  mainCameras : List (Handle × Handle)
  written : List (String × FileContent)
  loaded : Loaded
deriving DecidableEq, Repr

/-- A freshly started engine. Handle `0` is never allocated. -/
def World.init : World :=
  { trace := [], next := 1, draws := 0, assets := [], objects := [], attributes := [],
    mainCameras := [], written := [], loaded := .nothing }

/-- The log in the order of execution. -/
def World.log (w : World) : List Event := w.trace.reverse

/-- Change the game object with handle `h`. -/
def updateObject (h : Handle) (f : GameObject → GameObject) (objs : List GameObject) :
    List GameObject :=
  objs.map fun o => if o.id = h then f o else o

/-- The disk as the routine finds it. -/
abbrev Disk := String → Option FileContent

/-- Modelled from the spec: the disk `disk` after the engine wrote the files `written`
(newest first); a written file replaces what was there. -/
def diskAfter (disk : Disk) (written : List (String × FileContent)) : Disk :=
  fun p =>
    match written.find? fun e => e.1 = p with
    | some e => some e.2
    | none => disk p

/-- Modelled from the spec: the handle an engine call returns. Creating calls return
a handle that was never used; the camera accessors look the object up. -/
def reply (c : Call) (w : World) : Handle :=
  match c with
  | .Application_Get => w.next
  | .CreateAsset _ _ => w.next
  | .Scene_new => w.next
  | .CreateGameObject _ _ => w.next
  | .Add _ _ => w.next
  | .CreatePlane _ _ _ _ _ => w.next
  | .SphereCollider_Create _ => w.next
  | .MainCamera s => ((w.mainCameras.find? fun p => p.1 = s).map Prod.snd).getD 0
  | .GetGameObject comp =>
      ((w.objects.find? fun o => o.components.any fun p => p.2 = comp).map GameObject.id).getD 0
  | .SelfRef o => o
  | _ => 0

/-- Modelled from the spec: the effect of an engine call that returned `h`.
A new scene comes with its main camera object (handle `h + 1`) carrying a
`Camera` component (handle `h + 2`). -/
def effect (c : Call) (h : Handle) (w : World) : World :=
  match c with
  | .Application_Get => { w with next := w.next + 1 }
  | .LoadSceneFile _ path => { w with loaded := .fromFile path }
  | .LoadScene _ scene => { w with loaded := .object scene }
  | .CreateAsset kind args => { w with next := w.next + 1, assets := ⟨h, kind, args⟩ :: w.assets }
  | .SaveManifest path => { w with written := (path, .manifest w.assets) :: w.written }
  | .Scene_new =>
      { w with
        next := w.next + 3
        objects := ⟨h + 1, h, "Main Camera", ⟨0, 0, 0⟩, ⟨0, 0, 0⟩, ⟨1, 1, 1⟩, none, [],
          [(.Camera, h + 2)]⟩ :: w.objects
        mainCameras := (h, h + 2) :: w.mainCameras }
  | .Save scene path =>
      { w with
        written := (path, .scene scene (w.objects.filter fun o => o.scene = scene) w.attributes)
          :: w.written }
  | .MainCamera _ => w
  | .GetGameObject _ => w
  | .SelfRef _ => w
  | .CreateGameObject scene name =>
      { w with
        next := w.next + 1
        objects := ⟨h, scene, name, ⟨0, 0, 0⟩, ⟨0, 0, 0⟩, ⟨1, 1, 1⟩, none, [], []⟩ :: w.objects }
  | .SetPostion o v => { w with objects := updateObject o (fun g => { g with position := v }) w.objects }
  | .SetRotation o v => { w with objects := updateObject o (fun g => { g with rotation := v }) w.objects }
  | .SetScale o v => { w with objects := updateObject o (fun g => { g with scale := v }) w.objects }
  | .AddChild parent child =>
      { w with
        objects := updateObject child (fun g => { g with parent := some parent })
          (updateObject parent (fun g => { g with children := g.children ++ [child] }) w.objects) }
  | .Add o kind =>
      { w with
        next := w.next + 1
        objects := updateObject o (fun g => { g with components := g.components ++ [(kind, h)] })
          w.objects }
  | .CreatePlane _ _ _ _ _ => { w with next := w.next + 1 }
  | .SphereCollider_Create _ => { w with next := w.next + 1 }
  | .method target m arg => { w with attributes := ⟨target, m, arg⟩ :: w.attributes }

/-- Modelled from the spec: the state after one logged interaction. A call has its
`effect`; a draw advances the random source; a query changes nothing. -/
def apply (ev : Event) (w : World) : World :=
  match ev with
  | .call c h => { effect c h w with trace := ev :: w.trace }
  | .draw _ _ => { w with trace := ev :: w.trace, draws := w.draws + 1 }
  | .exist _ _ => { w with trace := ev :: w.trace }

/-- The state after a list of logged interactions, oldest first. -/
def replay (evs : List Event) (w : World) : World := evs.foldl (fun w ev => apply ev w) w

/-! ## Running a program -/

/-- What an engine call throws. -/
structure Exception where
  what : String
deriving DecidableEq, Repr

/-- What the routine does not control: which engine calls throw, and what is on
the disk when it starts. `fault n c` is asked when `c` is about to be made with
`n` interactions already logged. -/
structure Env where
  fault : Nat → Call → Option Exception
  disk : Disk

/-- The disk with no file on it. -/
def emptyDisk : Disk := fun _ => none

/-- An engine in which no call throws, over an empty disk. -/
def Env.ideal : Env := { fault := fun _ _ => none, disk := emptyDisk }

/-- How a run ends: normally with a value, or with an exception leaving the routine.
In both cases the state at that moment is given. -/
inductive Outcome (α : Type) where
  | ok (a : α) (w : World)
  | threw (e : Exception) (w : World)

/-- The state at the end of the run. -/
def Outcome.world {α : Type} : Outcome α → World
  | .ok _ w => w
  | .threw _ w => w

/-- Whether the run ended normally. -/
def Outcome.completed {α : Type} : Outcome α → Bool
  | .ok _ _ => true
  | .threw _ _ => false

/-- Run a program. The routine has no `try`: the first exception ends it. The
answer to draw number `n` is the symbolic sample `n`. -/
def run {α : Type} (env : Env) : Prog α → World → Outcome α
  | .ret a, w => .ok a w
  | .call c k, w =>
      match (if c.canThrow then env.fault w.trace.length c else none) with
      | some e => .threw e w
      | none => run env (k (reply c w)) (apply (.call c (reply c w)) w)
  | .rand d k, w => run env (k ⟨w.draws⟩) (apply (.draw d ⟨w.draws⟩) w)
  | .fsExists p k, w =>
      run env (k (diskAfter env.disk w.written p).isSome)
        (apply (.exist p (diskAfter env.disk w.written p).isSome) w)

/-- The log of the run of `_CreateScene` on a fresh engine in which no call throws. -/
def script : List Event := (run Env.ideal _CreateScene World.init).world.log

/-! ## Vocabulary for the claims -/

/-- No call of `evs` throws, when `evs` starts at position `start` of the log. -/
def NoFault (env : Env) (start : Nat) (evs : List Event) : Prop :=
  ∀ i c h, evs[i]? = some (.call c h) → c.canThrow = true → env.fault (start + i) c = none

/-- Calls that write a file or change what the application shows. -/
def Event.isOutput : Event → Bool
  | .call (.SaveManifest _) _ => true
  | .call (.Save _ _) _ => true
  | .call (.LoadScene _ _) _ => true
  | .call (.LoadSceneFile _ _) _ => true
  | _ => false

/-- Queries to the filesystem. -/
def Event.isQuery : Event → Bool
  | .exist _ _ => true
  | _ => false

/-- Interactions that read the disk: loading a scene from a file, or a query. -/
def Event.readsDisk : Event → Bool
  | .call (.LoadSceneFile _ _) _ => true
  | .exist _ _ => true
  | _ => false

/-- The call `ResourceManager::CreateAsset`. -/
def Event.isCreateAsset : Event → Bool
  | .call (.CreateAsset _ _) _ => true
  | _ => false

/-- The call `ResourceManager::SaveManifest`. -/
def Event.isSaveManifest : Event → Bool
  | .call (.SaveManifest _) _ => true
  | _ => false

/-- Whether `p i ev` holds for every entry `ev` of a log, `i` being its position
counted from `start`. -/
def allFrom (p : Nat → Event → Bool) : Nat → List Event → Bool
  | _, [] => true
  | start, ev :: evs => p start ev && allFrom p (start + 1) evs

/-- The file type the spec lists for each kind of asset loaded from disk: "OBJ
meshes, PNG/JPG textures, GLSL shader sources, a 3D LUT cube file". A material
is not loaded from a file. -/
def requiredExtension : AssetKind → Option String
  | .MeshResource => some ".obj"
  | .ShaderProgram => some ".glsl"
  | .Texture2D => some ".png"
  | .Texture2DArray => some ".png"
  | .Texture1D => some ".png"
  | .TextureCube => some ".jpg"
  | .Texture3D => some ".CUBE"
  | .Material => none

/-- The on-disk paths among the arguments of `CreateAsset`. -/
def AssetArgs.paths : AssetArgs → List String
  | .parts sources => sources.map Prod.snd
  | .path file => [file]
  | .pathGrid file _ _ => [file]
  | .descriptor _ => []
  | .shader _ => []
  | .none => []

/-- Whether `path` ends in `ext`. -/
def hasExtension (path ext : String) : Bool := ext.data.isSuffixOf path.data

/-- Whether every on-disk path of a `CreateAsset` call has the file type of its kind. -/
def Call.pathsOk : Call → Bool
  | .CreateAsset kind args =>
      match requiredExtension kind with
      | some ext => args.paths.all fun p => hasExtension p ext
      | none => args.paths.isEmpty
  | _ => true

/-- The on-disk paths passed to `CreateAsset<kind>` in a log, in order. -/
def pathsOfKind (kind : AssetKind) : List Event → List String
  | [] => []
  | .call (.CreateAsset k args) _ :: evs =>
      if k = kind then args.paths ++ pathsOfKind kind evs else pathsOfKind kind evs
  | _ :: evs => pathsOfKind kind evs

/-- The shader stages of each `CreateAsset<ShaderProgram>` call in a log, in order. -/
def shaderStages : List Event → List (List ShaderPartType)
  | [] => []
  | .call (.CreateAsset .ShaderProgram (.parts sources)) _ :: evs =>
      sources.map Prod.fst :: shaderStages evs
  | _ :: evs => shaderStages evs

/-- The number of `Light` components a game object carries. -/
def GameObject.lightCount (o : GameObject) : Nat :=
  (o.components.filter fun p => p.1 = .Light).length

/-- Whether a game object carries a `RigidBody` component. -/
def GameObject.hasRigidBody (o : GameObject) : Bool :=
  o.components.any fun p =>
    match p.1 with
    | .RigidBody _ => true
    | _ => false

/-- The handles the run hands out for the fifty lights. -/
def lightHandles : List Handle := (List.range 50).map fun i => 39 + 2 * i

/-- The calls `CreateGameObject(_, "Light")`. -/
def Event.isLightCreation : Event → Bool
  | .call (.CreateGameObject _ name) _ => name = "Light"
  | _ => false

/-- The game object with handle `h`, if there is exactly one. -/
def World.object (w : World) (h : Handle) : Option GameObject :=
  match w.objects.filter fun o => o.id = h with
  | [o] => some o
  | _ => none

/-- The game object named `name`, if there is exactly one. -/
def World.objectNamed (w : World) (name : String) : Option GameObject :=
  match w.objects.filter fun o => o.name = name with
  | [o] => some o
  | _ => none

/-- The latest argument given to setter `m` of `target`. -/
def World.attribute (w : World) (target : Handle) (m : Method) : Option Value :=
  (w.attributes.find? fun a => a.target = target ∧ a.m = m).map Attribute.arg

/-- The material set on the render component of the game object named `name`. -/
def World.materialOf (w : World) (name : String) : Option Handle :=
  match w.objectNamed name with
  | some o =>
      match o.components.find? fun p => p.1 = .RenderComponent with
      | some (_, r) =>
          match w.attribute r .SetMaterial with
          | some (.handle m) => some m
          | _ => none
      | none => none
  | none => none

/-- The value last given to `u_Material.Shininess` of a material. -/
def World.shininess (w : World) (material : Handle) : Option Scalar :=
  match w.attribute material (.Set "u_Material.Shininess") with
  | some (.scalar q) => some q
  | _ => none

/-- The handles of the materials that were created. -/
def World.materials (w : World) : List Handle :=
  (w.assets.filter fun a => a.kind = .Material).map Asset.id

/-- The state the engine is in when `n` interactions of the script are logged. -/
def stateAt (n : Nat) : World := replay (script.take n) World.init

/-- The state at the end of the run in which no call throws. -/
def finalState : World := replay script World.init

/-- An engine whose second interaction, the first `CreateAsset`, throws. -/
def envMissingShader : Env :=
  { fault := fun n _ => if n = 1 then some ⟨"file not found"⟩ else none, disk := emptyDisk }

/-- A disk that already holds a file `scene.json`. -/
def diskWithScene : Disk := fun p => if p = "scene.json" then some (.other "old scene") else none

/-- The calls `object->Add<RigidBody>(...)` on the object `h`. -/
def Event.addsRigidBodyTo (h : Handle) : Event → Bool
  | .call (.Add o (.RigidBody _)) _ => o = h
  | _ => false

/-- Whether a `CreateAsset` call of a log is recorded in the list `assets`. -/
def Event.recordedIn (assets : List Asset) : Event → Bool
  | .call (.CreateAsset kind args) h => decide (Asset.mk h kind args ∈ assets)
  | _ => true

/-- Whether a material has a literal shininess in the closed interval from 0 to 1. -/
def World.shininessInUnit (w : World) (material : Handle) : Bool :=
  match w.shininess material with
  | some (.lit q) => decide (0 ≤ q) && decide (q ≤ 1)
  | _ => false

/-- Whether the game object `c` is a light under the parent `parent`: it is there
exactly once, is named "Light", has that parent, carries exactly one `Light`
component, and the `z` of its position is the literal 1. -/
def World.isLightUnder (objs : List GameObject) (parent : Handle) (c : Handle) : Bool :=
  match objs.filter fun o => o.id = c with
  | [o] =>
      decide (o.name = "Light") && decide (o.parent = some parent) &&
        decide (o.lightCount = 1) && decide (o.position.z = .lit 1)
  | _ => false

/-! ## Generic facts about runs -/

theorem apply_trace (ev : Event) (w : World) : (apply ev w).trace = ev :: w.trace := by
  cases ev <;> rfl

theorem replay_nil (w : World) : replay [] w = w := rfl

theorem replay_cons (ev : Event) (evs : List Event) (w : World) :
    replay (ev :: evs) w = replay evs (apply ev w) := rfl

theorem replay_append (xs ys : List Event) (w : World) :
    replay (xs ++ ys) w = replay ys (replay xs w) := by
  simp [replay, List.foldl_append]

theorem replay_trace (evs : List Event) (w : World) :
    (replay evs w).trace = evs.reverse ++ w.trace := by
  induction evs generalizing w with
  | nil => simp [replay_nil]
  | cons ev evs ih => simp [replay_cons, ih, apply_trace]

theorem replay_log (evs : List Event) (w : World) : (replay evs w).log = w.log ++ evs := by
  simp [World.log, replay_trace]

theorem NoFault_nil (env : Env) (start : Nat) : NoFault env start [] := by
  intro i c h hi; simp at hi

theorem NoFault_cons (env : Env) (start : Nat) (ev : Event) (evs : List Event)
    (h0 : ∀ c h, ev = .call c h → c.canThrow = true → env.fault start c = none)
    (h1 : NoFault env (start + 1) evs) : NoFault env start (ev :: evs) := by
  intro i c h hi hc
  cases i with
  | zero =>
      simp at hi
      exact h0 c h hi hc
  | succ i =>
      simp at hi
      have := h1 i c h hi hc
      rwa [Nat.add_assoc, Nat.add_comm 1 i] at this

/-- The shape of every run. The run in which no call throws, over an empty disk,
completes with some log `evs`. If that log holds no filesystem query, the
actual run either completes in the same state, no call of `evs` throwing, or
stops at the first call of `evs` that throws, with that exception, in the state
reached just before that call. -/
theorem run_cases {α : Type} (env : Env) (p : Prog α) : ∀ w : World,
    ∃ a evs, run Env.ideal p w = .ok a (replay evs w) ∧
      ((∀ ev ∈ evs, ev.isQuery = false) →
        ((run env p w = .ok a (replay evs w) ∧ NoFault env w.trace.length evs) ∨
         (∃ n c h e, evs[n]? = some (.call c h) ∧ c.canThrow = true ∧
            env.fault (w.trace.length + n) c = some e ∧
            NoFault env w.trace.length (evs.take n) ∧
            run env p w = .threw e (replay (evs.take n) w)))) := by
  induction p with
  | ret a =>
      intro w
      exact ⟨a, [], rfl, fun _ => Or.inl ⟨rfl, NoFault_nil _ _⟩⟩
  | call c k ih =>
      intro w
      obtain ⟨a, evs, hid, hrun⟩ := ih (reply c w) (apply (.call c (reply c w)) w)
      refine ⟨a, .call c (reply c w) :: evs, ?_, fun hq => ?_⟩
      · simp only [run, Env.ideal, ite_self, replay_cons]
        exact hid
      · have hrun := hrun fun ev hev => hq ev (List.mem_cons_of_mem _ hev)
        cases hf : (if c.canThrow then env.fault w.trace.length c else none) with
        | some e =>
            right
            have hc : c.canThrow = true := by
              by_contra hc
              simp [hc] at hf
            rw [if_pos hc] at hf
            refine ⟨0, c, reply c w, e, by simp, hc, by simpa using hf, ?_, ?_⟩
            · simpa using NoFault_nil env _
            · simp only [run, hf, if_pos hc, List.take_zero, replay_nil]
        | none =>
            have hstep : run env (Prog.call c k) w
                = run env (k (reply c w)) (apply (.call c (reply c w)) w) := by
              simp only [run, hf]
            have h0 : ∀ c' h', Event.call c (reply c w) = .call c' h' → c'.canThrow = true →
                env.fault w.trace.length c' = none := by
              intro c' h' heq hc'
              cases heq
              simpa [hc'] using hf
            rw [apply_trace] at hrun
            rcases hrun with ⟨hok, hnf⟩ | ⟨n, c', h', e, hget, hc', hfault, hnf, hthrew⟩
            · left
              exact ⟨by rw [hstep, replay_cons]; exact hok, NoFault_cons _ _ _ _ h0 hnf⟩
            · right
              refine ⟨n + 1, c', h', e, by simpa using hget, hc', ?_, ?_, ?_⟩
              · rw [← hfault]; simp [Nat.add_assoc, Nat.add_comm 1 n]
              · simpa using NoFault_cons _ _ _ _ h0 hnf
              · rw [hstep, List.take_succ_cons, replay_cons]; exact hthrew
  | rand d k ih =>
      intro w
      obtain ⟨a, evs, hid, hrun⟩ := ih ⟨w.draws⟩ (apply (.draw d ⟨w.draws⟩) w)
      refine ⟨a, .draw d ⟨w.draws⟩ :: evs, ?_, fun hq => ?_⟩
      · simp only [run, replay_cons]
        exact hid
      · have hrun := hrun fun ev hev => hq ev (List.mem_cons_of_mem _ hev)
        have hstep : run env (Prog.rand d k) w
            = run env (k ⟨w.draws⟩) (apply (.draw d ⟨w.draws⟩) w) := by
          simp only [run]
        have h0 : ∀ c' h', Event.draw d ⟨w.draws⟩ = .call c' h' → c'.canThrow = true →
            env.fault w.trace.length c' = none := by
          intro c' h' heq
          cases heq
        rw [apply_trace] at hrun
        rcases hrun with ⟨hok, hnf⟩ | ⟨n, c', h', e, hget, hc', hfault, hnf, hthrew⟩
        · left
          exact ⟨by rw [hstep, replay_cons]; exact hok, NoFault_cons _ _ _ _ h0 hnf⟩
        · right
          refine ⟨n + 1, c', h', e, by simpa using hget, hc', ?_, ?_, ?_⟩
          · rw [← hfault]; simp [Nat.add_assoc, Nat.add_comm 1 n]
          · simpa using NoFault_cons _ _ _ _ h0 hnf
          · rw [hstep, List.take_succ_cons, replay_cons]; exact hthrew
  | fsExists path k ih =>
      intro w
      obtain ⟨a, evs, hid, _⟩ := ih (diskAfter Env.ideal.disk w.written path).isSome
        (apply (.exist path (diskAfter Env.ideal.disk w.written path).isSome) w)
      refine ⟨a, .exist path (diskAfter Env.ideal.disk w.written path).isSome :: evs, ?_,
        fun hq => ?_⟩
      · simp only [run, replay_cons]
        exact hid
      · have := hq _ (List.mem_cons_self _ _)
        simp [Event.isQuery] at this

/-- The counted loop runs its body for `ix`, `ix + 1`, ..., `hi - 1` and stops. -/
theorem forLoop_unroll (body : Nat → Prog Unit) (hi : Nat) : ∀ (n ix : Nat), ix + n = hi →
    forLoop ix hi body
      = (List.range' ix n).foldr (fun i k => (body i).bind fun _ => k) (Prog.ret ())
  | 0, ix, h => by
      rw [forLoop, if_neg (by omega)]; rfl
  | n+1, ix, h => by
      rw [forLoop, if_pos (by omega), forLoop_unroll body hi n (ix+1) (by omega)]
      rfl

theorem allFrom_get (p : Nat → Event → Bool) : ∀ (evs : List Event) (start k : Nat) (ev : Event),
    allFrom p start evs = true → evs[k]? = some ev → p (start + k) ev = true
  | [], _, _, _, _, hk => by simp at hk
  | e :: evs, start, 0, ev, h, hk => by
      simp at hk
      simp only [allFrom, Bool.and_eq_true] at h
      simpa [hk] using h.1
  | e :: evs, start, k + 1, ev, h, hk => by
      simp at hk
      simp only [allFrom, Bool.and_eq_true] at h
      have := allFrom_get p evs (start + 1) k ev h.2 hk
      rwa [Nat.add_assoc, Nat.add_comm 1 k] at this

/-! ## The script, evaluated -/

theorem script_no_query : script.all (fun ev => !ev.isQuery) = true := by
  unfold script _CreateScene
  simp only [forLoop_unroll _ 50 50 0 rfl]
  decide!

/-- Every run of the routine on a fresh engine: it completes in the final state of
the script, no call of the script throwing, or it stops at the first call of
the script that throws, with that exception, in the state just before it. -/
theorem CreateScene_cases (env : Env) :
    (run env _CreateScene World.init = .ok () finalState ∧ NoFault env 0 script) ∨
    (∃ n c h e, script[n]? = some (.call c h) ∧ c.canThrow = true ∧
      env.fault n c = some e ∧ NoFault env 0 (script.take n) ∧
      run env _CreateScene World.init = .threw e (stateAt n)) := by
  obtain ⟨a, evs, hid, h⟩ := run_cases env _CreateScene World.init
  have hevs : script = evs := by
    unfold script
    rw [hid]
    simp only [Outcome.world, replay_log]
    simp [World.log, World.init]
  subst hevs
  have hq : ∀ ev ∈ script, ev.isQuery = false := by
    intro ev hev
    have := List.all_eq_true.mp script_no_query ev hev
    simpa using this
  have h := h hq
  simp only [World.init, List.length_nil, Nat.zero_add] at h
  cases a
  exact h

theorem script_length : script.length = 685 := by
  unfold script _CreateScene
  simp only [forLoop_unroll _ 50 50 0 rfl]
  decide!

theorem script_drop : script.drop 682 =
    [.call (.SaveManifest "scene-manifest.json") 0, .call (.Save 29 "scene.json") 0,
     .call (.LoadScene 1 29) 0] := by
  unfold script _CreateScene
  simp only [forLoop_unroll _ 50 50 0 rfl]
  decide!

theorem script_take_quiet :
    (script.take 682).all (fun ev => !ev.isOutput) = true := by
  unfold script _CreateScene
  simp only [forLoop_unroll _ 50 50 0 rfl]
  decide!

theorem script_no_read : script.all (fun ev => !ev.readsDisk) = true := by
  unfold script _CreateScene
  simp only [forLoop_unroll _ 50 50 0 rfl]
  decide!

theorem script_outputs_last :
    allFrom (fun i ev => decide (i < 682) || ev.isOutput) 0 script = true := by
  unfold script _CreateScene
  simp only [forLoop_unroll _ 50 50 0 rfl]
  decide!

theorem script_creators :
    Event.call .Application_Get 1 ∈ script.take 682 ∧
      Event.call .Scene_new 29 ∈ script.take 682 := by
  unfold script _CreateScene
  simp only [forLoop_unroll _ 50 50 0 rfl]
  decide!

theorem finalState_outputs :
    finalState.written =
        [("scene.json",
            .scene 29 (finalState.objects.filter fun o => o.scene = 29) finalState.attributes),
         ("scene-manifest.json", .manifest finalState.assets)] ∧
      finalState.loaded = .object 29 := by
  unfold finalState script _CreateScene
  simp only [forLoop_unroll _ 50 50 0 rfl]
  decide!

theorem script_split : script = script.take 682 ++
    [.call (.SaveManifest "scene-manifest.json") 0, .call (.Save 29 "scene.json") 0,
     .call (.LoadScene 1 29) 0] := by
  rw [← script_drop, List.take_append_drop]

theorem finalState_log : finalState.log = script := by
  rw [finalState, replay_log]
  simp [World.log, World.init]

theorem stateAt_log (n : Nat) : (stateAt n).log = script.take n := by
  rw [stateAt, replay_log]
  simp [World.log, World.init]

theorem apply_quiet (ev : Event) (w : World) (h : ev.isOutput = false) :
    (apply ev w).written = w.written ∧ (apply ev w).loaded = w.loaded := by
  cases ev with
  | call c r => cases c <;> first | exact ⟨rfl, rfl⟩ | simp [Event.isOutput] at h
  | draw d s => exact ⟨rfl, rfl⟩
  | exist p b => exact ⟨rfl, rfl⟩

theorem replay_quiet (evs : List Event) : ∀ (w : World), (∀ ev ∈ evs, ev.isOutput = false) →
    (replay evs w).written = w.written ∧ (replay evs w).loaded = w.loaded := by
  induction evs with
  | nil => intro w _; exact ⟨rfl, rfl⟩
  | cons ev evs ih =>
      intro w h
      have h1 := apply_quiet ev w (h ev (List.mem_cons_self _ _))
      have h2 := ih (apply ev w) fun e he => h e (List.mem_cons_of_mem _ he)
      rw [replay_cons]
      exact ⟨h2.1.trans h1.1, h2.2.trans h1.2⟩

theorem take_quiet (n : Nat) (hn : n ≤ 682) : ∀ ev ∈ script.take n, ev.isOutput = false := by
  intro ev hev
  have hsub : ev ∈ script.take 682 := by
    have : script.take n = (script.take 682).take n := by
      rw [List.take_take, Nat.min_eq_left hn]
    rw [this] at hev
    exact List.mem_of_mem_take hev
  have := List.all_eq_true.mp script_take_quiet ev hsub
  simpa using this

/-- The log of any run is an initial part of the script. -/
theorem run_log (env : Env) :
    ∃ n, (run env _CreateScene World.init).world.log = script.take n := by
  rcases CreateScene_cases env with ⟨hok, _⟩ | ⟨n, c, h, e, _, _, _, _, hthrew⟩
  · refine ⟨script.length, ?_⟩
    rw [hok, List.take_length]
    exact finalState_log
  · exact ⟨n, by rw [hthrew]; exact stateAt_log n⟩

/-- A run that completes ends in the final state of the script. -/
theorem run_ok (env : Env) (w : World) (h : run env _CreateScene World.init = .ok () w) :
    w = finalState := by
  rcases CreateScene_cases env with ⟨hok, _⟩ | ⟨n, c, r, e, _, _, _, _, hthrew⟩
  · rw [hok] at h
    cases h
    rfl
  · rw [hthrew] at h
    cases h

/-- The run in which no call throws completes. -/
theorem ideal_run (disk : Disk) :
    run ⟨fun _ _ => none, disk⟩ _CreateScene World.init = .ok () finalState := by
  rcases CreateScene_cases ⟨fun _ _ => none, disk⟩ with ⟨hok, _⟩ | ⟨n, c, r, e, _, _, hf, _, _⟩
  · exact hok
  · simp at hf

theorem finalState_built :
    finalState.objects.all (fun o =>
      decide (o.scene = 29) &&
        (decide (o.name = "Main Camera") ||
          decide (Event.call (.CreateGameObject 29 o.name) o.id ∈ script))) = true := by
  unfold finalState script _CreateScene
  simp only [forLoop_unroll _ 50 50 0 rfl]
  decide!

theorem script_second : script[1]? = some (.call (.CreateAsset .ShaderProgram (.parts [
    (.Vertex, "shaders/vertex_shaders/basic.glsl"),
    (.Fragment, "shaders/fragment_shaders/deferred_forward.glsl")])) 2) := by
  unfold script _CreateScene
  simp only [forLoop_unroll _ 50 50 0 rfl]
  decide!

/-! ## The claims -/

/-- C1: on every run of `_CreateScene` that completes, the output calls are, in
this order and at the very end of the log, `SaveManifest("scene-manifest.json")`,
`Save("scene.json")` on the scene and `LoadScene` of a scene; no other call
writes a file or hands a scene over; exactly two files were written, the
manifest and then the scene; and the scene handed to the application is the
object that `make_shared<Scene>` returned and that was saved. -/
theorem C1_outputs_in_order (env : Env) (w : World)
    (hrun : run env _CreateScene World.init = .ok () w) :
    ∃ app scene pre,
      w.log = pre ++ [.call (.SaveManifest "scene-manifest.json") 0,
        .call (.Save scene "scene.json") 0, .call (.LoadScene app scene) 0] ∧
      (∀ ev ∈ pre, ev.isOutput = false) ∧
      Event.call .Application_Get app ∈ pre ∧ Event.call .Scene_new scene ∈ pre ∧
      (∃ assets objs attrs, w.written =
        [("scene.json", .scene scene objs attrs), ("scene-manifest.json", .manifest assets)]) ∧
      w.loaded = .object scene := by
  obtain rfl := run_ok env w hrun
  refine ⟨1, 29, script.take 682, ?_, take_quiet 682 (Nat.le_refl _), script_creators.1,
    script_creators.2, ⟨_, _, _, finalState_outputs.1⟩, finalState_outputs.2⟩
  rw [finalState_log]
  exact script_split

/-- C1 at the run in which no call throws, over an empty disk. -/
theorem C1_outputs_in_order_witness :
    run Env.ideal _CreateScene World.init = .ok () finalState ∧
    ∃ app scene pre,
      finalState.log = pre ++ [.call (.SaveManifest "scene-manifest.json") 0,
        .call (.Save scene "scene.json") 0, .call (.LoadScene app scene) 0] ∧
      (∀ ev ∈ pre, ev.isOutput = false) ∧
      Event.call .Application_Get app ∈ pre ∧ Event.call .Scene_new scene ∈ pre ∧
      (∃ assets objs attrs, finalState.written =
        [("scene.json", .scene scene objs attrs), ("scene-manifest.json", .manifest assets)]) ∧
      finalState.loaded = .object scene :=
  ⟨ideal_run emptyDisk, C1_outputs_in_order Env.ideal finalState (ideal_run emptyDisk)⟩

/-- C2: whatever is on the disk, no run of `_CreateScene` reads it: the log holds
no `LoadScene("scene.json")` from file and no `exists` query. A run that
completes has built the scene by calls (every object of it is the camera of
the new scene or was made by `CreateGameObject`), has saved it, and the file
"scene.json" then holds that scene, whatever it held before. -/
theorem C2_builds_and_overwrites (env : Env) :
    (∀ ev ∈ (run env _CreateScene World.init).world.log, ev.readsDisk = false) ∧
    (∀ w, run env _CreateScene World.init = .ok () w →
      ∃ scene, Event.call .Scene_new scene ∈ w.log ∧
        Event.call (.Save scene "scene.json") 0 ∈ w.log ∧
        diskAfter env.disk w.written "scene.json"
          = some (.scene scene (w.objects.filter fun o => o.scene = scene) w.attributes) ∧
        (∀ o ∈ w.objects, o.scene = scene ∧ (o.name = "Main Camera" ∨
          Event.call (.CreateGameObject scene o.name) o.id ∈ w.log)) ∧
        w.loaded = .object scene) := by
  constructor
  · intro ev hev
    obtain ⟨n, hn⟩ := run_log env
    rw [hn] at hev
    have := List.all_eq_true.mp script_no_read ev (List.mem_of_mem_take hev)
    simpa using this
  · intro w hrun
    obtain rfl := run_ok env w hrun
    refine ⟨29, ?_, ?_, ?_, ?_, finalState_outputs.2⟩
    · rw [finalState_log]
      exact List.mem_of_mem_take script_creators.2
    · rw [finalState_log, script_split]
      simp
    · simp [diskAfter, finalState_outputs.1]
    · intro o ho
      have := List.all_eq_true.mp finalState_built o ho
      rw [finalState_log]
      simpa using this

/-- C2 over a disk that already holds a file "scene.json". -/
theorem C2_builds_and_overwrites_witness :
    diskWithScene "scene.json" = some (.other "old scene") ∧
    ∃ scene, diskAfter diskWithScene finalState.written "scene.json"
      = some (.scene scene (finalState.objects.filter fun o => o.scene = scene)
          finalState.attributes) :=
  ⟨rfl,
    let ⟨scene, _, _, h, _⟩ :=
      (C2_builds_and_overwrites ⟨fun _ _ => none, diskWithScene⟩).2 finalState
        (ideal_run diskWithScene)
    ⟨scene, h⟩⟩

/-- C3: `_CreateScene` handles no failure itself. With every engine call a step
that may throw: the run fails exactly when some call of the script throws; a
failed run ends with the exception of the first call that threw, unchanged, in
the state reached just before that call; and when that call is not one of the
three output calls at the end, no file was written and no scene was handed to
the application. -/
theorem C3_failure_propagates (env : Env) :
    ((run env _CreateScene World.init).completed = false ↔
      ∃ n c h, script[n]? = some (.call c h) ∧ c.canThrow = true ∧
        (env.fault n c).isSome = true) ∧
    (∀ e w, run env _CreateScene World.init = .threw e w →
      ∃ n c h, script[n]? = some (.call c h) ∧ env.fault n c = some e ∧
        NoFault env 0 (script.take n) ∧ w = stateAt n ∧ w.log = script.take n ∧
        ((Event.call c h).isOutput = false →
          w.written = [] ∧ w.loaded = .nothing ∧ diskAfter env.disk w.written = env.disk ∧
            ∀ ev ∈ w.log, ev.isOutput = false)) := by
  constructor
  · constructor
    · intro hfail
      rcases CreateScene_cases env with ⟨hok, _⟩ | ⟨n, c, h, e, hget, hc, hf, _, _⟩
      · rw [hok] at hfail
        simp [Outcome.completed] at hfail
      · exact ⟨n, c, h, hget, hc, by simp [hf]⟩
    · rintro ⟨n, c, h, hget, hc, hf⟩
      rcases CreateScene_cases env with ⟨_, hnf⟩ | ⟨m, c', h', e, _, _, _, _, hthrew⟩
      · have := hnf n c h hget hc
        rw [Nat.zero_add] at this
        rw [this] at hf
        cases hf
      · rw [hthrew]
        rfl
  · intro e w hrun
    rcases CreateScene_cases env with ⟨hok, _⟩ | ⟨n, c, h, e', hget, _, hf, hnf, hthrew⟩
    · rw [hok] at hrun
      cases hrun
    · rw [hthrew] at hrun
      cases hrun
      refine ⟨n, c, h, hget, hf, hnf, rfl, stateAt_log n, fun hout => ?_⟩
      have hn : n ≤ 682 := by
        have := allFrom_get _ script 0 n _ script_outputs_last hget
        simp [hout] at this
        omega
      have hq := replay_quiet (script.take n) World.init (take_quiet n hn)
      have hw : (stateAt n).written = [] := hq.1
      refine ⟨hw, hq.2, ?_, ?_⟩
      · rw [hw]
        rfl
      · rw [stateAt_log]
        exact take_quiet n hn

/-- C3 at an engine whose first `CreateAsset` throws: the run fails with that
exception and nothing was written or handed over. -/
theorem C3_failure_propagates_witness :
    (run envMissingShader _CreateScene World.init).completed = false ∧
    ∀ e w, run envMissingShader _CreateScene World.init = .threw e w →
      ∃ n c h, script[n]? = some (.call c h) ∧ envMissingShader.fault n c = some e ∧
        NoFault envMissingShader 0 (script.take n) ∧ w = stateAt n ∧ w.log = script.take n ∧
        ((Event.call c h).isOutput = false →
          w.written = [] ∧ w.loaded = .nothing ∧
            diskAfter envMissingShader.disk w.written = envMissingShader.disk ∧
            ∀ ev ∈ w.log, ev.isOutput = false) :=
  ⟨(C3_failure_propagates envMissingShader).1.mpr ⟨1, _, _, script_second, rfl, rfl⟩,
    (C3_failure_propagates envMissingShader).2⟩

theorem get_take {α : Type} : ∀ (l : List α) (n i : Nat) (a : α),
    (l.take n)[i]? = some a → l[i]? = some a
  | [], n, i, a, h => by simp at h
  | x :: l, 0, i, a, h => by simp at h
  | x :: l, n + 1, 0, a, h => by simpa using h
  | x :: l, n + 1, i + 1, a, h => by
      simp only [List.take_succ_cons, List.getElem?_cons_succ] at h ⊢
      exact get_take l n i a h

theorem script_paths_ok :
    script.all (fun ev =>
      match ev with
      | .call c _ => c.pathsOk
      | _ => true) = true := by
  unfold script _CreateScene
  simp only [forLoop_unroll _ 50 50 0 rfl]
  decide!

theorem script_paths :
    pathsOfKind .MeshResource script =
        ["Monkey.obj", "fenrir.obj", "ground.obj", "Knight.obj", "link.obj", "FLag.obj"] ∧
      shaderStages script = List.replicate 6 [.Vertex, .Fragment] ∧
      (pathsOfKind .ShaderProgram script).length = 12 ∧
      (pathsOfKind .Texture2D script).length = 8 ∧
      pathsOfKind .Texture2DArray script = ["textures/particles.png"] ∧
      pathsOfKind .Texture1D script = ["luts/toon-1D.png"] ∧
      pathsOfKind .TextureCube script = ["cubemaps/ocean/ocean.jpg"] ∧
      pathsOfKind .Texture3D script = ["luts/cool.CUBE"] ∧
      pathsOfKind .Material script = [] := by
  unfold script _CreateScene
  simp only [forLoop_unroll _ 50 50 0 rfl]
  decide!

/-- C4: every on-disk path passed to `CreateAsset`, in any run, ends in the file
type the spec lists for the kind of asset: ".obj" for meshes, ".glsl" for
shader sources, ".png" for 2D, 2D-array and 1D textures, ".jpg" for the cube
map, ".CUBE" for the 3D look-up table. When no call throws there are 6 mesh
paths, 6 shader programs with one vertex and one fragment source each (12
paths), one cube map path and one 3D look-up table path. -/
theorem C4_asset_paths (env : Env) :
    (∀ kind args h,
      Event.call (.CreateAsset kind args) h ∈ (run env _CreateScene World.init).world.log →
      ∀ p ∈ args.paths, ∃ ext, requiredExtension kind = some ext ∧ hasExtension p ext = true) ∧
    (pathsOfKind .MeshResource script).length = 6 ∧
    shaderStages script = List.replicate 6 [.Vertex, .Fragment] ∧
    (pathsOfKind .ShaderProgram script).length = 12 ∧
    pathsOfKind .TextureCube script = ["cubemaps/ocean/ocean.jpg"] ∧
    pathsOfKind .Texture3D script = ["luts/cool.CUBE"] := by
  refine ⟨?_, ?_, script_paths.2.1, script_paths.2.2.1, script_paths.2.2.2.2.2.2.1,
    script_paths.2.2.2.2.2.2.2.1⟩
  · intro kind args h hev p hp
    obtain ⟨n, hn⟩ := run_log env
    rw [hn] at hev
    have hok := List.all_eq_true.mp script_paths_ok _ (List.mem_of_mem_take hev)
    simp only [Call.pathsOk] at hok
    cases hext : requiredExtension kind with
    | none =>
        rw [hext] at hok
        simp only [List.isEmpty_iff] at hok
        rw [hok] at hp
        cases hp
    | some ext =>
        rw [hext] at hok
        exact ⟨ext, rfl, List.all_eq_true.mp hok p hp⟩
  · rw [script_paths.1]
    rfl

theorem finalState_lights :
    ((finalState.objects.filter fun o => o.scene = 29).filter fun o => o.name = "Lights").map
        (fun o => (o.id, o.children)) = [(38, lightHandles)] ∧
      lightHandles.all
        (World.isLightUnder (finalState.objects.filter fun o => o.scene = 29) 38) = true ∧
      (finalState.objects.filter fun o => o.scene = 29).all
        (fun o => decide (o.id ∈ lightHandles) || decide (o.lightCount = 0)) = true ∧
      (script.filter Event.isLightCreation).length = 50 := by
  unfold finalState script _CreateScene
  simp only [forLoop_unroll _ 50 50 0 rfl]
  decide!

theorem lightHandles_distinct : lightHandles.length = 50 ∧ lightHandles.Nodup := by
  decide

/-- C5: the light loop is the fifty-fold repetition of its body. On every run
that completes, fifty objects named "Light" were created, and the scene saved
in "scene.json" holds exactly one object named "Lights"; it has exactly 50
children, all distinct; each child is one game object named "Light" whose
parent is "Lights", which carries exactly one `Light` component and whose
position has `z` equal to 1 whatever the random source answers; and no object
of the scene other than these children carries a `Light` component. -/
theorem C5_fifty_lights (env : Env) (w : World)
    (hrun : run env _CreateScene World.init = .ok () w) :
    (∀ scene lightParent, forLoop 0 50 (lightBody scene lightParent) =
      (List.range' 0 50).foldr (fun i k => (lightBody scene lightParent i).bind fun _ => k)
        (Prog.ret ())) ∧
    (w.log.filter Event.isLightCreation).length = 50 ∧
    ∃ scene objs attrs parent,
      diskAfter env.disk w.written "scene.json" = some (.scene scene objs attrs) ∧
      (objs.filter fun o => o.name = "Lights") = [parent] ∧
      parent.children.length = 50 ∧ parent.children.Nodup ∧
      (∀ c ∈ parent.children, ∃ o, (objs.filter fun o => o.id = c) = [o] ∧
        o.name = "Light" ∧ o.parent = some parent.id ∧ o.lightCount = 1 ∧
        ∀ ρ, o.position.z.value ρ = 1) ∧
      (∀ o ∈ objs, o.id ∉ parent.children → o.lightCount = 0) := by
  obtain rfl := run_ok env w hrun
  obtain ⟨hparent, hlights, hothers, hcount⟩ := finalState_lights
  refine ⟨fun scene lightParent => forLoop_unroll _ 50 50 0 rfl, ?_, ?_⟩
  · rw [finalState_log]
    exact hcount
  · have hdisk : diskAfter env.disk finalState.written "scene.json"
        = some (.scene 29 (finalState.objects.filter fun o => o.scene = 29)
            finalState.attributes) := by
      simp [diskAfter, finalState_outputs.1]
    generalize (finalState.objects.filter fun o => o.scene = 29) = objs at *
    rcases hl : (objs.filter fun o => o.name = "Lights") with _ | ⟨parent, _ | ⟨q, t⟩⟩
    · rw [hl] at hparent
      simp at hparent
    · rw [hl] at hparent
      simp only [List.map_cons, List.map_nil, List.cons.injEq, Prod.mk.injEq, and_true] at hparent
      obtain ⟨hid, hchildren⟩ := hparent
      refine ⟨29, objs, finalState.attributes, parent, hdisk, hl, ?_, ?_, ?_, ?_⟩
      · rw [hchildren]
        exact lightHandles_distinct.1
      · rw [hchildren]
        exact lightHandles_distinct.2
      · intro c hc
        rw [hchildren] at hc
        have hc' := List.all_eq_true.mp hlights c hc
        unfold World.isLightUnder at hc'
        rcases ho : (objs.filter fun o => o.id = c) with _ | ⟨o, _ | ⟨o', t'⟩⟩
        · rw [ho] at hc'
          simp at hc'
        · rw [ho] at hc'
          simp only [Bool.and_eq_true, decide_eq_true_eq] at hc'
          obtain ⟨⟨⟨hname, hpar⟩, hlc⟩, hz⟩ := hc'
          refine ⟨o, ho, hname, by rw [hpar, hid], hlc, fun ρ => ?_⟩
          rw [hz]
          rfl
        · rw [ho] at hc'
          simp at hc'
      · intro o ho hnot
        rw [hchildren] at hnot
        have := List.all_eq_true.mp hothers o ho
        simpa [hnot] using this
    · rw [hl] at hparent
      simp at hparent

/-- C5 at the run in which no call throws, over an empty disk. -/
theorem C5_fifty_lights_witness :
    run Env.ideal _CreateScene World.init = .ok () finalState ∧
    (finalState.log.filter Event.isLightCreation).length = 50 :=
  ⟨ideal_run emptyDisk, (C5_fifty_lights Env.ideal finalState (ideal_run emptyDisk)).2.1⟩

theorem script_assets_before_manifest :
    allFrom (fun i ev => (!ev.isCreateAsset || decide (i < 682)) &&
      (!ev.isSaveManifest || decide (i = 682))) 0 script = true := by
  unfold script _CreateScene
  simp only [forLoop_unroll _ 50 50 0 rfl]
  decide!

theorem script_asset_counts :
    script.filter Event.isSaveManifest = [.call (.SaveManifest "scene-manifest.json") 0] ∧
      (script.filter Event.isCreateAsset).length = 36 := by
  unfold script _CreateScene
  simp only [forLoop_unroll _ 50 50 0 rfl]
  decide!

theorem finalState_assets :
    finalState.assets.length = 36 ∧
      script.all (Event.recordedIn finalState.assets) = true := by
  unfold finalState script _CreateScene
  simp only [forLoop_unroll _ 50 50 0 rfl]
  decide!

/-- C6: in the log of every run, each `CreateAsset` call comes before any
`SaveManifest` call. A run that completes made exactly one `SaveManifest`
call and 36 `CreateAsset` calls (shaders, meshes, textures, look-up tables,
cube map, materials and the three generated meshes), and the manifest file
lists every asset they created. -/
theorem C6_assets_before_manifest (env : Env) :
    (∀ (i j : Nat) kind args h path r,
      (run env _CreateScene World.init).world.log[i]?
        = some (Event.call (.CreateAsset kind args) h) →
      (run env _CreateScene World.init).world.log[j]?
        = some (Event.call (.SaveManifest path) r) →
      i < j) ∧
    (∀ w, run env _CreateScene World.init = .ok () w →
      w.log.filter Event.isSaveManifest = [.call (.SaveManifest "scene-manifest.json") 0] ∧
      (w.log.filter Event.isCreateAsset).length = 36 ∧
      ∃ assets, diskAfter env.disk w.written "scene-manifest.json" = some (.manifest assets) ∧
        assets.length = 36 ∧
        ∀ kind args h, Event.call (.CreateAsset kind args) h ∈ w.log →
          Asset.mk h kind args ∈ assets) := by
  constructor
  · intro i j kind args h path r hi hj
    obtain ⟨n, hn⟩ := run_log env
    rw [hn] at hi hj
    have h1 := allFrom_get _ script 0 i _ script_assets_before_manifest (get_take _ _ _ _ hi)
    have h2 := allFrom_get _ script 0 j _ script_assets_before_manifest (get_take _ _ _ _ hj)
    simp [Event.isCreateAsset, Event.isSaveManifest] at h1 h2
    omega
  · intro w hrun
    obtain rfl := run_ok env w hrun
    rw [finalState_log]
    refine ⟨script_asset_counts.1, script_asset_counts.2, finalState.assets, ?_,
      finalState_assets.1, ?_⟩
    · simp [diskAfter, finalState_outputs.1]
    · intro kind args h hev
      have := List.all_eq_true.mp finalState_assets.2 _ hev
      simpa [Event.recordedIn] using this

/-- C6 at the run in which no call throws: one manifest call, 36 assets. -/
theorem C6_assets_before_manifest_witness :
    run Env.ideal _CreateScene World.init = .ok () finalState ∧
    finalState.log.filter Event.isSaveManifest
      = [.call (.SaveManifest "scene-manifest.json") 0] ∧
    (finalState.log.filter Event.isCreateAsset).length = 36 :=
  ⟨ideal_run emptyDisk,
    ((C6_assets_before_manifest Env.ideal).2 finalState (ideal_run emptyDisk)).1,
    ((C6_assets_before_manifest Env.ideal).2 finalState (ideal_run emptyDisk)).2.1⟩

/-- C7, as the code behaves: in the run in which no call throws, when
`JumpBehaviour` (interaction 642) and `CharacterMovement` (interaction 643) are
added to "Link", that object carries no component at all, so no `RigidBody`;
no call of the routine ever adds a `RigidBody` to "Link", and it has none at
the end. "Knight" does carry a `RigidBody` when `EnemyComponent` (interaction
657) is added to it. -/
theorem C7_link_has_no_rigid_body :
    script[640]? = some (.call (.CreateGameObject 29 "Link") 145) ∧
    script[642]? = some (.call (.Add 145 .JumpBehaviour) 146) ∧
    script[643]? = some (.call (.Add 145 .CharacterMovement) 147) ∧
    ((stateAt 642).object 145).map GameObject.components = some [] ∧
    ((stateAt 643).object 145).map GameObject.hasRigidBody = some false ∧
    (∀ ev ∈ script, ev.addsRigidBodyTo 145 = false) ∧
    (finalState.objectNamed "Link").map GameObject.hasRigidBody = some false ∧
    script[650]? = some (.call (.CreateGameObject 29 "Knight") 151) ∧
    script[657]? = some (.call (.Add 151 .EnemyComponent) 154) ∧
    ((stateAt 657).object 151).map GameObject.hasRigidBody = some true := by
  have h : script[640]? = some (.call (.CreateGameObject 29 "Link") 145) ∧
      script[642]? = some (.call (.Add 145 .JumpBehaviour) 146) ∧
      script[643]? = some (.call (.Add 145 .CharacterMovement) 147) ∧
      ((stateAt 642).object 145).map GameObject.components = some [] ∧
      ((stateAt 643).object 145).map GameObject.hasRigidBody = some false ∧
      script.all (fun ev => !ev.addsRigidBodyTo 145) = true ∧
      (finalState.objectNamed "Link").map GameObject.hasRigidBody = some false ∧
      script[650]? = some (.call (.CreateGameObject 29 "Knight") 151) ∧
      script[657]? = some (.call (.Add 151 .EnemyComponent) 154) ∧
      ((stateAt 657).object 151).map GameObject.hasRigidBody = some true := by
    unfold finalState stateAt script _CreateScene
    simp only [forLoop_unroll _ 50 50 0 rfl]
    decide!
  obtain ⟨h1, h2, h3, h4, h5, h6, h7, h8, h9, h10⟩ := h
  refine ⟨h1, h2, h3, h4, h5, ?_, h7, h8, h9, h10⟩
  intro ev hev
  have := List.all_eq_true.mp h6 ev hev
  simpa using this

theorem finalState_shininess :
    finalState.materialOf "Background" = some 33 ∧
      finalState.materialOf "Link" = some 34 ∧
      finalState.materialOf "Knight" = some 35 ∧
      finalState.shininess 33 = some (.lit 0.5) ∧
      finalState.shininess 34 = some (.lit 0.1) ∧
      finalState.shininess 35 = some (.lit 0.9) ∧
      finalState.materials.length = 5 ∧
      finalState.materials.all finalState.shininessInUnit = true := by
  unfold finalState script _CreateScene
  simp only [forLoop_unroll _ 50 50 0 rfl]
  decide!

/-- C8: on every run that completes, the material set on "Link" has shininess
0.1, the one on "Background" 0.5 and the one on "Knight" 0.9, literals read as
exact decimals, so link is strictly less shiny than background, which is
strictly less shiny than knight; five materials were created and the
`u_Material.Shininess` of each is a literal in the closed interval from 0 to 1. -/
theorem C8_shininess_order (env : Env) (w : World)
    (hrun : run env _CreateScene World.init = .ok () w) :
    ∃ (link background knight : Handle) (sl sb sk : Rat),
      w.materialOf "Link" = some link ∧ w.materialOf "Background" = some background ∧
      w.materialOf "Knight" = some knight ∧
      w.shininess link = some (.lit sl) ∧ w.shininess background = some (.lit sb) ∧
      w.shininess knight = some (.lit sk) ∧
      sl = 0.1 ∧ sb = 0.5 ∧ sk = 0.9 ∧ sl < sb ∧ sb < sk ∧
      w.materials.length = 5 ∧
      ∀ m ∈ w.materials, ∃ q : Rat, w.shininess m = some (.lit q) ∧ 0 ≤ q ∧ q ≤ 1 := by
  obtain rfl := run_ok env w hrun
  obtain ⟨hb, hl, hk, hsb, hsl, hsk, hlen, hall⟩ := finalState_shininess
  refine ⟨34, 33, 35, 0.1, 0.5, 0.9, hl, hb, hk, hsl, hsb, hsk, rfl, rfl, rfl, by norm_num,
    by norm_num, hlen, ?_⟩
  intro m hm
  have := List.all_eq_true.mp hall m hm
  unfold World.shininessInUnit at this
  split at this
  · rename_i q hq
    simp only [Bool.and_eq_true, decide_eq_true_eq] at this
    exact ⟨q, hq, this.1, this.2⟩
  · cases this

/-- C8 at the run in which no call throws, over an empty disk. -/
theorem C8_shininess_order_witness :
    run Env.ideal _CreateScene World.init = .ok () finalState ∧
    ∃ (link background knight : Handle) (sl sb sk : Rat),
      finalState.materialOf "Link" = some link ∧
      finalState.materialOf "Background" = some background ∧
      finalState.materialOf "Knight" = some knight ∧
      finalState.shininess link = some (.lit sl) ∧
      finalState.shininess background = some (.lit sb) ∧
      finalState.shininess knight = some (.lit sk) ∧
      sl = 0.1 ∧ sb = 0.5 ∧ sk = 0.9 ∧ sl < sb ∧ sb < sk ∧
      finalState.materials.length = 5 ∧
      ∀ m ∈ finalState.materials, ∃ q : Rat,
        finalState.shininess m = some (.lit q) ∧ 0 ≤ q ∧ q ≤ 1 :=
  ⟨ideal_run emptyDisk, C8_shininess_order Env.ideal finalState (ideal_run emptyDisk)⟩

end DefaultSceneLayer
